import Mathlib

/-!
Verification of the py-zmsg client against its specification.

The development shallowly embeds the program's core:
  * `src/zmsg/utils.py`  — memo codec (`hex_decode`, `format_amounts`);
  * `src/zmsg/rpc.py`    — JSON-RPC error classification, `_call`,
    `_get_response`, and the per-connection request-id counter;
  * `src/zmsg/zmsg.py`   — the send workflow (`find_unspent_taddr`,
    `send_msg`) and the receive workflow (`received_by_zaddr`).

Python strings become `String`, bytes become `List Nat` (each < 256),
monetary amounts become `ℚ` (the code routes them through
`decimal.Decimal`, an exact decimal type), fallible operations return
`Option`, and the I/O oracles (RPC responses, poll outcomes, the wall
clock) are passed in explicitly.
-/

/-! ### Memo codec (`src/zmsg/utils.py`) -/

/-- One hex digit character, lowercase, as produced by `binascii.b2a_hex`. -/
def hexDigitChar (n : Nat) : Char :=
  if n < 10 then Char.ofNat (48 + n) else Char.ofNat (87 + n)

/-- Value of a hex digit character as accepted by `binascii.unhexlify`
(digits, lowercase and uppercase letters); `none` for a non-hex character. -/
def hexDigitVal (c : Char) : Option Nat :=
  if '0' ≤ c ∧ c ≤ '9' then some (c.toNat - 48)
  else if 'a' ≤ c ∧ c ≤ 'f' then some (c.toNat - 87)
  else if 'A' ≤ c ∧ c ≤ 'F' then some (c.toNat - 55)
  else none

/-- `binascii.unhexlify`: pairs of hex digits to bytes; `none` on an
odd-length input or a non-hex character (Python raises `binascii.Error`). -/
def unhexlify : List Char → Option (List Nat)
  | [] => some []
  | [_] => none
  | a :: b :: rest =>
    match hexDigitVal a, hexDigitVal b, unhexlify rest with
    | some x, some y, some bs => some ((x * 16 + y) :: bs)
    | _, _, _ => none

/-- `bytes.decode('ascii')`: `none` when a byte is outside the ASCII
range (Python raises `UnicodeDecodeError`). -/
def asciiDecode (bs : List Nat) : Option String :=
  if bs.all (· < 128) then some (String.mk (bs.map Char.ofNat)) else none

/-- `bytes(s, encoding="ascii")`: `none` when a character is outside the
ASCII range (Python raises `UnicodeEncodeError`). -/
def asciiEncode (s : String) : Option (List Nat) :=
  if s.data.all (fun c => c.toNat < 128) then some (s.data.map Char.toNat)
  else none

/-- Hex digits of a byte string, two lowercase digits per byte
(`binascii.b2a_hex`). -/
def hexOfBytes : List Nat → List Char
  | [] => []
  | b :: rest => hexDigitChar (b / 16) :: hexDigitChar (b % 16) :: hexOfBytes rest

/-- `str.rstrip('0')`: remove every trailing `'0'` character. -/
def rstrip0 (s : String) : String :=
  String.mk ((s.data.reverse.dropWhile (· == '0')).reverse)

/-- Result of `hex_decode`: the Python function returns `None` when the
stripped memo is the `"f6"` sentinel (`absent`), returns the decoded text
otherwise, and raises when `unhexlify` or the ASCII decode fails. -/
inductive DecodeResult where
  | absent
  | text (s : String)
  | error
deriving DecidableEq, Repr

/-- `utils.hex_decode`: strip trailing `'0'` characters; if the result is
not the sentinel `"f6"`, unhexlify it and decode the bytes as ASCII. -/
def hex_decode (msg : String) : DecodeResult :=
  let msgstr := rstrip0 msg
  if msgstr = "f6" then .absent
  else
    match unhexlify msgstr.data with
    | none => .error
    | some bs =>
      match asciiDecode bs with
      | none => .error
      | some s => .text s

/-- One entry of the `z_sendmany` amounts array: the `memo` key is
present only when the message is nonempty. -/
structure AmountEntry where
  address : String
  amount : ℚ
  memo : Option String
deriving DecidableEq, Repr

/-- `utils.format_amounts`: a one-element amounts array; the memo key is
omitted for the empty message, otherwise it is the hex encoding of the
message (`none` overall when the ASCII encode of the message raises). -/
def format_amounts (receiver : String) (amount : ℚ) (msg : String) :
    Option (List AmountEntry) :=
  if msg = "" then some [⟨receiver, amount, none⟩]
  else
    match asciiEncode msg with
    | none => none
    | some bs => some [⟨receiver, amount, some (String.mk (hexOfBytes bs))⟩]

/-- `n` copies of the character `'0'`, for stating padding facts. -/
def zeros (n : Nat) : String := String.mk (List.replicate n '0')

/-! ### JSON-RPC error classification (`src/zmsg/rpc.py`) -/

/-- The registered `JSONRPCError` subclasses plus the base class itself
(`generic`), which `__new__` falls back to for unregistered codes. -/
inductive ErrorKind where
  | forbiddenBySafeMode
  | invalidAddressOrKey
  | invalidParameter
  | verifyError
  | verifyRejected
  | verifyAlreadyInChain
  | inWarmup
  | generic
deriving DecidableEq, Repr

/-- The `error` field of a JSON-RPC response: `{code, message}`. -/
structure RpcError where
  code : Int
  message : String
deriving DecidableEq, Repr

/-- `JSONRPCError.SUBCLS_BY_CODE`: the module-load-time registry built by
the `@JSONRPCError._register_subcls` decorations in `rpc.py`. -/
def SUBCLS_BY_CODE (code : Int) : Option ErrorKind :=
  if code = -2 then some .forbiddenBySafeMode
  else if code = -5 then some .invalidAddressOrKey
  else if code = -8 then some .invalidParameter
  else if code = -25 then some .verifyError
  else if code = -26 then some .verifyRejected
  else if code = -27 then some .verifyAlreadyInChain
  else if code = -28 then some .inWarmup
  else none

/-- The exception object `JSONRPCError.__new__` builds: a concrete class
chosen from the registry by `rpc_error['code']` (the base class when the
code is unregistered), with `self.error` set to the payload unchanged. -/
structure ClassifiedError where
  kind : ErrorKind
  error : RpcError
deriving DecidableEq, Repr

/-- `JSONRPCError(rpc_error)`: classify by code, keep the payload. -/
def JSONRPCError_new (rpc_error : RpcError) : ClassifiedError :=
  ⟨(SUBCLS_BY_CODE rpc_error.code).getD .generic, rpc_error⟩

/-! ### Response handling: `_call` and `_get_response` -/

/-- JSON values as decoded by `json.loads(..., parse_float=decimal.Decimal)`:
numbers carry an exact rational value, never a binary float. -/
inductive JVal where
  | jnull
  | jbool (b : Bool)
  | jnum (q : ℚ)
  | jstr (s : String)
  | jarr (xs : List JVal)
  | jobj (fields : List (String × JVal))

/-- A decoded JSON-RPC response object. `error = none` models a null
`error` field; `result = none` models the `'result'` key being absent. -/
structure RpcResponse where
  error : Option RpcError
  result : Option JVal

/-- What `BaseProxy._call` does with a decoded response: raise a
classified error, or return the result. -/
inductive CallResult where
  | ok (v : JVal)
  | err (e : ClassifiedError)

/-- Response handling of `BaseProxy._call` (rpc.py lines 169-176): a
non-null `error` raises its classification; a missing `'result'` key
raises the synthetic code -343; otherwise the result is returned. -/
def BaseProxy_call_handle (response : RpcResponse) : CallResult :=
  match response.error with
  | some e => .err (JSONRPCError_new e)
  | none =>
    match response.result with
    | none => .err (JSONRPCError_new ⟨-343, "missing JSON-RPC result"⟩)
    | some r => .ok r

/-- `BaseProxy._get_response` (rpc.py lines 189-196): a missing HTTP
response raises the synthetic code -342, otherwise the body is decoded. -/
def BaseProxy_get_response (http_response : Option RpcResponse) :
    Except ClassifiedError RpcResponse :=
  match http_response with
  | none => .error (JSONRPCError_new ⟨-342, "missing HTTP response from server"⟩)
  | some r => .ok r

/-! ### Request-id counter (`BaseProxy.__init__` / `BaseProxy._call`) -/

/-- The mutable state of one `BaseProxy`: the private `__id_count`
counter, set to 0 in `__init__` (rpc.py line 147). -/
structure ProxyState where
  id_count : Nat
deriving DecidableEq, Repr

/-- An outgoing JSON-RPC request as stamped by `_call` (rpc.py lines
156-162): `{'version': '1.1', 'method': ..., 'params': ..., 'id': ...}`. -/
structure RpcRequest where
  method : String
  id : Nat
deriving DecidableEq, Repr

/-- The id-stamping prefix of `BaseProxy._call`: increment `__id_count`,
then stamp the request with the incremented value. -/
def BaseProxy_call_stamp (st : ProxyState) (method : String) :
    ProxyState × RpcRequest :=
  let n := st.id_count + 1
  (⟨n⟩, ⟨method, n⟩)

/-- Ids stamped on a sequence of calls made through one proxy, in call
order. -/
def traceIds (st : ProxyState) : List String → List Nat
  | [] => []
  | m :: ms =>
    let (st', req) := BaseProxy_call_stamp st m
    req.id :: traceIds st' ms

/-! ### Exact decimal number decoding (`parse_float=decimal.Decimal`) -/

/-- Value of a decimal digit character; `none` for a non-digit. -/
def digitVal (c : Char) : Option Nat :=
  if '0' ≤ c ∧ c ≤ '9' then some (c.toNat - 48) else none

/-- Left fold of decimal digits into a natural number; `none` when a
character is not a digit. The empty list gives 0. -/
def parseDigits (l : List Char) : Option Nat :=
  l.foldl
    (fun acc c =>
      match acc, digitVal c with
      | some a, some d => some (a * 10 + d)
      | _, _ => none)
    (some 0)

/-- Split a character list at its first `'.'`. -/
def splitOnDot : List Char → Option (List Char × List Char)
  | [] => none
  | c :: rest =>
    if c = '.' then some ([], rest)
    else
      match splitOnDot rest with
      | some (ip, fp) => some (c :: ip, fp)
      | none => none

/-- Modelled stdlib behaviour: `decimal.Decimal(lit)` for a fractional
JSON literal `intpart.fracpart`, as invoked by
`json.loads(..., parse_float=decimal.Decimal)` in `_get_response`
(rpc.py line 195-196). The exact rational value of the literal is
returned; `none` models a malformed literal. -/
def parse_float_Decimal (s : String) : Option ℚ :=
  match splitOnDot s.data with
  | none => none
  | some (ip, fp) =>
    match parseDigits ip, parseDigits fp with
    | some i, some f => some ((i : ℚ) + (f : ℚ) / (10 : ℚ) ^ fp.length)
    | _, _ => none

/-! ### Send workflow (`src/zmsg/zmsg.py`) -/

/-- One entry of the node's `listunspent` listing, with the fields
`find_unspent_taddr` reads. -/
structure Utxo where
  address : String
  amount : ℚ
  spendable : Bool
deriving DecidableEq, Repr

/-- `Zmsg.find_unspent_taddr` (zmsg.py lines 82-87): scan the unspent
listing in order, returning the address of the first output that is
`spendable` and whose amount strictly exceeds the requested amount;
Python falls off the loop and returns `None` when no output qualifies. -/
def find_unspent_taddr (unspent : List Utxo) (amount : ℚ) : Option String :=
  match unspent with
  | [] => none
  | tx :: rest =>
    if tx.spendable = true then
      if tx.amount > amount then some tx.address
      else find_unspent_taddr rest amount
    else find_unspent_taddr rest amount

/-- Python `str(...)` on the sender that `z_sendmany` applies to its
`fromaddress` argument (rpc.py line 315): `str(None)` is `"None"`. -/
def pyStrOfOpt : Option String → String
  | none => "None"
  | some s => s

/-- One element of the `z_getoperationstatus` reply actually read by
`send_msg`: `response_array[0]['status']` and, on failure,
`response_array[0]['error']`. -/
structure PollResp where
  status : String
  error : String
deriving DecidableEq, Repr

/-- Observable outcome of `send_msg`'s polling loop. The Python function
returns `None` in every non-raising case; what distinguishes the cases
is which terminal branch ran:
  * `sentSuccess`: the in-loop `'success'` branch printed the success
    message (the loop then exits);
  * `raisedFailed`: the in-loop `'failed'` branch raised
    `Exception(response_array[0]['error'])`;
  * `timedOut`: the unrecognized-status branch saw more than 120 s
    elapsed, fetched `z_getoperationresult` and `break`-ed;
  * `loopExit`: the `while status == 'executing'` guard became false
    with no terminal branch running (initial status not `'executing'`,
    or an unrecognized status within the 120 s window);
  * `outOfPolls`: the supplied poll oracle ran dry (the real loop would
    keep polling).
Each terminal constructor records how many 1-second sleeps ran. -/
inductive SendOutcome where
  | sentSuccess (opid : String) (sleeps : Nat)
  | raisedFailed (opid : String) (err : String) (sleeps : Nat)
  | timedOut (opid : String) (resultStatus : String) (sleeps : Nat)
  | loopExit (finalStatus : String) (sleeps : Nat)
  | outOfPolls
deriving DecidableEq, Repr

/-- The `while status == 'executing'` loop of `send_msg` (zmsg.py lines
102-119). `st` is the current value of `status`; each iteration consumes
one poll from `polls`. `timedOutAt i` tells whether
`time.time() > start_time + 120` held at iteration `i`, and
`opResultStatus` is `z_getoperationresult([opid])[0]['status']`. -/
def sendPoll (opid : String) (st : String) (polls : List PollResp)
    (timedOutAt : Nat → Bool) (opResultStatus : String)
    (iter sleeps : Nat) : SendOutcome :=
  if st = "executing" then
    match polls with
    | [] => .outOfPolls
    | p :: rest =>
      if p.status = "executing" then
        sendPoll opid p.status rest timedOutAt opResultStatus (iter + 1) (sleeps + 1)
      else if p.status = "success" then
        .sentSuccess opid sleeps
      else if p.status = "failed" then
        .raisedFailed opid p.error sleeps
      else if timedOutAt iter then
        .timedOut opid opResultStatus sleeps
      else
        .loopExit p.status sleeps
  else .loopExit st sleeps

/-- The observable trace of one `send_msg` invocation: the `fromaddress`
string handed to `z_sendmany`, the amounts array handed to it, and the
polling outcome. -/
structure SendTrace where
  fromAddress : String
  amounts : List AmountEntry
  outcome : SendOutcome
deriving DecidableEq, Repr

/-- `Zmsg.send_msg` (zmsg.py lines 89-119). The node is an oracle:
`unspent` is what `listunspent` returns, `opid` what `z_sendmany`
returns, `polls` the successive `z_getoperationstatus` statuses (the
first element is the status check on line 97-98, before the loop), and
`timedOutAt`/`opResultStatus` feed the timeout branch. The overall
`Option` is `none` when `format_amounts` raises on a non-ASCII message. -/
def send_msg (sender : Option String) (receiver : String) (amount : ℚ)
    (msg : String) (unspent : List Utxo) (opid : String)
    (polls : List PollResp) (timedOutAt : Nat → Bool)
    (opResultStatus : String) : Option SendTrace :=
  let sender' :=
    if sender = some "" ∨ sender = none then find_unspent_taddr unspent amount
    else sender
  match format_amounts receiver amount msg with
  | none => none
  | some amounts =>
    let fromaddress := pyStrOfOpt sender'
    match polls with
    | [] => some ⟨fromaddress, amounts, .outOfPolls⟩
    | p :: rest =>
      some ⟨fromaddress, amounts,
            sendPoll opid p.status rest timedOutAt opResultStatus 0 0⟩

/-! ### Receive workflow (`Zmsg.received_by_zaddr`, zmsg.py lines 60-71) -/

/-- One entry of the `z_listreceivedbyaddress` reply, with the fields
`received_by_zaddr` reads. -/
structure RecvTx where
  txid : String
  amount : ℚ
  memo : String
deriving DecidableEq, Repr

/-- One emitted message record. `time` carries the parent transaction's
raw `'time'` field, fetched via `gettransaction(txid)` (the Python code
formats it with `time.ctime` before storing; the formatting is
presentation only and is not modelled). -/
structure MsgRecord where
  time : Int
  amount : ℚ
  memo : String
deriving DecidableEq, Repr

/-- `Zmsg.received_by_zaddr`: decode each received memo; an `absent`
memo (`hex_decode` returned `None`) is skipped, a decoded text memo is
joined with its parent transaction's timestamp, and a decode error
(`hex_decode` raised) propagates out of the whole call (`none`).
`gettxTime txid` is what `gettransaction(txid)['time']` returns. -/
def received_by_zaddr (gettxTime : String → Int) :
    List RecvTx → Option (List MsgRecord)
  | [] => some []
  | tx :: rest =>
    match hex_decode tx.memo with
    | .error => none
    | .absent => received_by_zaddr gettxTime rest
    | .text m =>
      (received_by_zaddr gettxTime rest).map
        (⟨gettxTime tx.txid, tx.amount, m⟩ :: ·)

/-- The test `find_unspent_taddr` applies to one unspent output:
`tx['spendable'] == True and tx['amount'] > amount`. -/
def goodUtxo (amt : ℚ) (tx : Utxo) : Prop :=
  tx.spendable = true ∧ tx.amount > amt

instance (amt : ℚ) (tx : Utxo) : Decidable (goodUtxo amt tx) := by
  unfold goodUtxo; infer_instance

/-! ### Helper lemmas -/

theorem dropWhileZeros_replicate_append (n : Nat) :
    (List.replicate n '0' ++ ['6', 'f']).dropWhile (· == '0') = ['6', 'f'] := by
  induction n with
  | zero => rfl
  | succ n ih => simp [List.replicate_succ, List.dropWhile_cons, ih]

theorem dropWhileZeros_replicate (n : Nat) :
    (List.replicate n '0').dropWhile (· == '0') = [] := by
  induction n with
  | zero => rfl
  | succ n ih => simp [List.replicate_succ, List.dropWhile_cons, ih]

theorem rstrip0_f6_zeros (n : Nat) : rstrip0 ("f6" ++ zeros n) = "f6" := by
  unfold rstrip0
  have hdata : ("f6" ++ zeros n).data = ['f', '6'] ++ List.replicate n '0' := by
    simp [zeros, String.data_append]
  rw [hdata, List.reverse_append, List.reverse_replicate]
  show String.mk (((List.replicate n '0' ++ ['6', 'f']).dropWhile (· == '0')).reverse) = _
  rw [dropWhileZeros_replicate_append]
  rfl

theorem rstrip0_zeros (n : Nat) : rstrip0 (zeros n) = "" := by
  unfold rstrip0 zeros
  show String.mk (((List.replicate n '0').reverse.dropWhile (· == '0')).reverse) = _
  rw [List.reverse_replicate, dropWhileZeros_replicate]
  rfl

theorem traceIds_eq_range' (c : Nat) (ms : List String) :
    traceIds ⟨c⟩ ms = List.range' (c + 1) ms.length := by
  induction ms generalizing c with
  | nil => rfl
  | cons m ms ih =>
    simp [traceIds, BaseProxy_call_stamp, List.range'_succ, ih (c + 1)]

/-! ### Claims C4, C5, C6, C7, C10 -/

/-- Claim C4: for every `n ≥ 0`, decoding the hex memo `"f6"` followed by
`n` `'0'` characters yields `absent` (no message present) — never a
decode error and never literal text. -/
theorem C4_empty_memo_sentinel (n : Nat) :
    hex_decode ("f6" ++ zeros n) = .absent := by
  simp [hex_decode, rstrip0_f6_zeros n]

/-- Claim C5: `JSONRPCError.__new__` keeps the payload unchanged, raises
the subclass registered for `error.code` (code -5 is
`InvalidAddressOrKeyError`), and falls back to the generic base class
for an unregistered code such as -999. -/
theorem C5_error_classification (e : RpcError) :
    (JSONRPCError_new e).error = e ∧
    (JSONRPCError_new ⟨-5, e.message⟩).kind = .invalidAddressOrKey ∧
    SUBCLS_BY_CODE (-999) = none ∧
    (SUBCLS_BY_CODE e.code = none → JSONRPCError_new e = ⟨.generic, e⟩) ∧
    (∀ k, SUBCLS_BY_CODE e.code = some k → (JSONRPCError_new e).kind = k) := by
  refine ⟨rfl, by simp [JSONRPCError_new, SUBCLS_BY_CODE], by decide,
    fun h => ?_, fun k h => ?_⟩
  · simp [JSONRPCError_new, h]
  · simp [JSONRPCError_new, h]

/-- Witness for C5 at code -999 (unregistered) and -5 (registered). -/
theorem C5_witness :
    JSONRPCError_new ⟨-999, "boom"⟩ = ⟨.generic, ⟨-999, "boom"⟩⟩ ∧
    (JSONRPCError_new ⟨-5, "boom"⟩).kind = .invalidAddressOrKey := by
  have h := C5_error_classification ⟨-999, "boom"⟩
  exact ⟨h.2.2.2.1 (by decide), h.2.1⟩

/-- Claim C6: a decoded response with a null `error` field and no
`'result'` key makes `_call` raise the synthetic RPC error with fixed
code -343, and a missing HTTP response makes `_get_response` raise the
synthetic RPC error with fixed code -342 — both are classified RPC
errors (kind `generic`), not transport exceptions. -/
theorem C6_synthetic_rpc_errors (resp : RpcResponse) :
    (resp.error = none → resp.result = none →
      BaseProxy_call_handle resp =
        .err ⟨.generic, ⟨-343, "missing JSON-RPC result"⟩⟩) ∧
    BaseProxy_get_response none =
      .error ⟨.generic, ⟨-342, "missing HTTP response from server"⟩⟩ := by
  constructor
  · intro h1 h2
    simp [BaseProxy_call_handle, h1, h2, JSONRPCError_new, SUBCLS_BY_CODE]
  · simp [BaseProxy_get_response, JSONRPCError_new, SUBCLS_BY_CODE]

/-- Witness for C6 at the response with null error and no result key. -/
theorem C6_witness :
    BaseProxy_call_handle ⟨none, none⟩ =
      .err ⟨.generic, ⟨-343, "missing JSON-RPC result"⟩⟩ ∧
    BaseProxy_get_response none =
      .error ⟨.generic, ⟨-342, "missing HTTP response from server"⟩⟩ :=
  ⟨(C6_synthetic_rpc_errors ⟨none, none⟩).1 rfl rfl,
   (C6_synthetic_rpc_errors ⟨none, none⟩).2⟩

/-- Claim C7: the ids stamped on the requests of any sequence of `N`
calls made through one proxy (whose `__id_count` starts at 0) are
exactly `1, 2, ..., N` — strictly increasing, starting from 1, with no
repeats. -/
theorem C7_id_monotonicity (methods : List String) :
    traceIds ⟨0⟩ methods = List.range' 1 methods.length ∧
    (traceIds ⟨0⟩ methods).Pairwise (· < ·) ∧
    (traceIds ⟨0⟩ methods).Nodup := by
  have h := traceIds_eq_range' 0 methods
  refine ⟨h, ?_, ?_⟩
  · rw [h]; exact List.pairwise_lt_range' 1 methods.length
  · rw [h]; exact List.nodup_range' 1 methods.length

/-- Claim C10: for every `n ≥ 1`, a memo of `n` `'0'` characters (no
`f6` sentinel) decodes to the empty string rather than `absent`, so
`received_by_zaddr` treats it as a present message, joins it with the
parent transaction's timestamp, and emits a record with empty memo
text. -/
theorem C10_all_zero_memo (n : Nat) (_hn : 1 ≤ n) (gettxTime : String → Int)
    (txid : String) (amt : ℚ) :
    hex_decode (zeros n) = .text "" ∧
    received_by_zaddr gettxTime [⟨txid, amt, zeros n⟩] =
      some [⟨gettxTime txid, amt, ""⟩] := by
  have hdec : hex_decode (zeros n) = .text "" := by
    simp [hex_decode, rstrip0_zeros n]
    rfl
  exact ⟨hdec, by simp [received_by_zaddr, hdec]⟩

/-- Witness for C10 at `n = 1`. -/
theorem C10_witness :
    hex_decode (zeros 1) = .text "" ∧
    received_by_zaddr (fun _ => (7 : Int)) [⟨"tx1", 1, zeros 1⟩] =
      some [⟨7, 1, ""⟩] :=
  C10_all_zero_memo 1 (by decide) (fun _ => (7 : Int)) "tx1" 1

/-! ### Claim C8 -/

theorem splitOnDot_append (ip fp : List Char) (h : '.' ∉ ip) :
    splitOnDot (ip ++ '.' :: fp) = some (ip, fp) := by
  induction ip with
  | nil => simp [splitOnDot]
  | cons c cs ih =>
    have hc : ¬(c = '.') := fun hc => h (hc ▸ List.mem_cons_self c cs)
    have ih' := ih (fun hm => h (List.mem_cons_of_mem c hm))
    simp [splitOnDot, hc, ih']

/-- Claim C8: a fractional JSON number literal `intpart.fracpart` in a
response body is decoded (via `parse_float=decimal.Decimal`) into the
exact rational value `intpart + fracpart / 10 ^ |fracpart|` — never a
lossy binary floating-point approximation. -/
theorem C8_exact_decimal_decoding (ip fp : List Char) (i f : Nat)
    (hdot : '.' ∉ ip) (hip : parseDigits ip = some i)
    (hfp : parseDigits fp = some f) :
    parse_float_Decimal (String.mk (ip ++ '.' :: fp)) =
      some ((i : ℚ) + (f : ℚ) / (10 : ℚ) ^ fp.length) := by
  simp only [parse_float_Decimal]
  rw [splitOnDot_append ip fp hdot]
  simp [hip, hfp]

/-- Witness for C8: `"0.00012345"` decodes to exactly `12345e-8`. -/
theorem C8_witness :
    parse_float_Decimal "0.00012345" = some ((12345 : ℚ) / 10 ^ 8) := by
  have h := C8_exact_decimal_decoding ['0'] ['0', '0', '0', '1', '2', '3', '4', '5']
    0 12345 (by decide) (by decide) (by decide)
  rw [show "0.00012345" =
      String.mk (['0'] ++ '.' :: ['0', '0', '0', '1', '2', '3', '4', '5']) from rfl, h]
  norm_num

/-! ### Claim C3: memo round-trip -/

theorem hexDigitVal_hexDigitChar : ∀ d < 16, hexDigitVal (hexDigitChar d) = some d := by
  decide

theorem hexDigitChar_ne_zero : ∀ d < 16, d ≠ 0 → hexDigitChar d ≠ '0' := by
  decide

theorem hexDigitChar_ne_f : ∀ d < 8, hexDigitChar d ≠ 'f' := by
  decide

theorem hexOfBytes_append (l l' : List Nat) :
    hexOfBytes (l ++ l') = hexOfBytes l ++ hexOfBytes l' := by
  induction l with
  | nil => rfl
  | cons b rest ih => simp [hexOfBytes, ih]

theorem unhexlify_hexOfBytes (bs : List Nat) (h : ∀ b ∈ bs, b < 256) :
    unhexlify (hexOfBytes bs) = some bs := by
  induction bs with
  | nil => rfl
  | cons b rest ih =>
    have hb : b < 256 := h b (List.mem_cons_self b rest)
    have hdiv : b / 16 < 16 := by omega
    have hmod : b % 16 < 16 := Nat.mod_lt b (by norm_num)
    have ih' := ih (fun x hx => h x (List.mem_cons_of_mem b hx))
    simp only [hexOfBytes, unhexlify,
      hexDigitVal_hexDigitChar (b / 16) hdiv,
      hexDigitVal_hexDigitChar (b % 16) hmod, ih']
    have : b / 16 * 16 + b % 16 = b := by omega
    rw [this]

theorem asciiDecode_map_toNat (s : String) (h : ∀ c ∈ s.data, c.toNat < 128) :
    asciiDecode (s.data.map Char.toNat) = some s := by
  unfold asciiDecode
  rw [if_pos]
  · rw [List.map_map]
    have : (Char.ofNat ∘ Char.toNat) = id := by
      funext c; exact Char.ofNat_toNat c
    rw [this, List.map_id]
  · simp only [List.all_eq_true, List.mem_map, decide_eq_true_eq]
    rintro x ⟨c, hc, rfl⟩
    exact h c hc

theorem rstrip0_concat_ne_zero (l : List Char) (c : Char) (hc : c ≠ '0') :
    rstrip0 (String.mk (l ++ [c])) = String.mk (l ++ [c]) := by
  unfold rstrip0
  have hdata : (String.mk (l ++ [c])).data = l ++ [c] := rfl
  rw [hdata, List.reverse_append]
  have : ([c].reverse ++ l.reverse).dropWhile (· == '0') = [c] ++ l.reverse := by
    simp [List.dropWhile_cons, hc]
  rw [this]
  simp

/-- Claim C3 (amended): decoding the hex memo that `format_amounts`
produces returns the original message for every nonempty printable
ASCII string whose final character's code is not a multiple of 16 (i.e.
whose hex encoding does not end in a `'0'` digit). When the hex encoding
does end in `'0'`, `hex_decode`'s `rstrip('0')` eats that digit and
`unhexlify` fails on the odd-length remainder, so the unamended claim is
false (see the counterexample). -/
theorem C3_amended_memo_roundtrip (r : String) (amt : ℚ) (s : String)
    (hne : s.data ≠ [])
    (hprint : ∀ c ∈ s.data, 32 ≤ c.toNat ∧ c.toNat ≤ 126)
    (hlast : (s.data.getLast hne).toNat % 16 ≠ 0) :
    ∃ m, format_amounts r amt s = some [⟨r, amt, some m⟩] ∧
      hex_decode m = .text s := by
  have hs : s ≠ "" := by
    intro h
    apply hne
    rw [h]
  have hlt128 : ∀ c ∈ s.data, c.toNat < 128 := by
    intro c hc
    exact lt_of_le_of_lt (hprint c hc).2 (by norm_num)
  have hasc : asciiEncode s = some (s.data.map Char.toNat) := by
    unfold asciiEncode
    rw [if_pos]
    simp only [List.all_eq_true, decide_eq_true_eq]
    exact hlt128
  refine ⟨String.mk (hexOfBytes (s.data.map Char.toNat)), ?_, ?_⟩
  · unfold format_amounts
    rw [if_neg hs, hasc]
  · have hdecomp : s.data.dropLast ++ [s.data.getLast hne] = s.data :=
      List.dropLast_concat_getLast hne
    have hlastmem : s.data.getLast hne ∈ s.data := List.getLast_mem hne
    have hlast16 : (s.data.getLast hne).toNat % 16 < 16 :=
      Nat.mod_lt _ (by norm_num)
    -- the hex string, decomposed around its final digit
    have hhx : hexOfBytes (s.data.map Char.toNat) =
        (hexOfBytes (s.data.dropLast.map Char.toNat) ++
          [hexDigitChar ((s.data.getLast hne).toNat / 16)]) ++
          [hexDigitChar ((s.data.getLast hne).toNat % 16)] := by
      conv_lhs => rw [← hdecomp]
      rw [List.map_append, hexOfBytes_append]
      simp [hexOfBytes]
    have hlastchar : hexDigitChar ((s.data.getLast hne).toNat % 16) ≠ '0' :=
      hexDigitChar_ne_zero _ hlast16 hlast
    have hrst : rstrip0 (String.mk (hexOfBytes (s.data.map Char.toNat))) =
        String.mk (hexOfBytes (s.data.map Char.toNat)) := by
      conv_lhs => rw [hhx]
      rw [rstrip0_concat_ne_zero _ _ hlastchar]
      rw [← hhx]
    have hnef6 : String.mk (hexOfBytes (s.data.map Char.toNat)) ≠ "f6" := by
      obtain ⟨d, tl, hd⟩ : ∃ d tl, s.data = d :: tl := by
        cases h : s.data with
        | nil => exact absurd h hne
        | cons d tl => exact ⟨d, tl, rfl⟩
      intro hcontra
      have hx_eq : hexOfBytes (s.data.map Char.toNat) = ['f', '6'] := by
        have := congrArg String.data hcontra
        exact this
      rw [hd] at hx_eq
      simp only [List.map_cons, hexOfBytes, List.cons.injEq] at hx_eq
      have hd126 : d.toNat ≤ 126 := (hprint d (hd ▸ List.mem_cons_self d tl)).2
      exact hexDigitChar_ne_f (d.toNat / 16) (by omega) hx_eq.1
    have hunhex : unhexlify (hexOfBytes (s.data.map Char.toNat)) =
        some (s.data.map Char.toNat) := by
      apply unhexlify_hexOfBytes
      intro b hb
      simp only [List.mem_map] at hb
      obtain ⟨c, hc, rfl⟩ := hb
      exact lt_trans (hlt128 c hc) (by norm_num)
    simp only [hex_decode]
    rw [hrst, if_neg hnef6]
    have hdata_mk : (String.mk (hexOfBytes (s.data.map Char.toNat))).data =
        hexOfBytes (s.data.map Char.toNat) := rfl
    rw [hdata_mk, hunhex]
    simp [asciiDecode_map_toNat s hlt128]

/-- Witness for C3 (amended) at `s = "hi"`. -/
theorem C3_witness :
    ∃ m, format_amounts "zaddr" 1 "hi" = some [⟨"zaddr", 1, some m⟩] ∧
      hex_decode m = .text "hi" :=
  C3_amended_memo_roundtrip "zaddr" 1 "hi" (by decide) (by decide) (by decide)

/-- Counterexample to C3 as stated: the printable ASCII string `"P"`
(hex `"50"`, even length) does not round-trip — `hex_decode` strips the
trailing `'0'`, leaving the odd-length string `"5"`, and `unhexlify`
raises, so decoding yields an error instead of `"P"`. -/
theorem C3_counterexample :
    format_amounts "zaddr" 1 "P" = some [⟨"zaddr", 1, some "50"⟩] ∧
    hex_decode "50" = .error ∧
    DecodeResult.error ≠ .text "P" := by
  refine ⟨?_, by decide, by decide⟩
  decide

/-! ### Claim C1: sender auto-selection -/

theorem find_unspent_taddr_none (unspent : List Utxo) (amt : ℚ)
    (h : ∀ t ∈ unspent, ¬ goodUtxo amt t) :
    find_unspent_taddr unspent amt = none := by
  induction unspent with
  | nil => rfl
  | cons tx rest ih =>
    have htx := h tx (List.mem_cons_self tx rest)
    have ih' := ih (fun t ht => h t (List.mem_cons_of_mem tx ht))
    by_cases hsp : tx.spendable = true
    · have hamt : ¬(tx.amount > amt) := fun ha => htx ⟨hsp, ha⟩
      simp [find_unspent_taddr, hsp, hamt, ih']
    · simp [find_unspent_taddr, hsp, ih']

theorem find_unspent_taddr_first (amt : ℚ) (pre : List Utxo) (tx : Utxo)
    (post : List Utxo) (hgood : goodUtxo amt tx)
    (hpre : ∀ t ∈ pre, ¬ goodUtxo amt t) :
    find_unspent_taddr (pre ++ tx :: post) amt = some tx.address := by
  induction pre with
  | nil => simp [find_unspent_taddr, hgood.1, hgood.2]
  | cons t ts ih =>
    have ht := hpre t (List.mem_cons_self t ts)
    have ih' := ih (fun u hu => hpre u (List.mem_cons_of_mem t hu))
    by_cases hsp : t.spendable = true
    · have hamt : ¬(t.amount > amt) := fun ha => ht ⟨hsp, ha⟩
      simp [find_unspent_taddr, hsp, hamt, ih']
    · simp [find_unspent_taddr, hsp, ih']

/-- Claim C1 (amended): with no sender supplied, `send_msg` selects the
address of the first unspent output, in listing order, that is
`spendable` and whose amount strictly exceeds the requested amount.
When no such output exists there is no `NoFundsAvailable` error — no
such error exists in the code — instead `find_unspent_taddr` returns
`None`, and the workflow proceeds, submitting `z_sendmany` with the
literal string `"None"` as `fromaddress`. -/
theorem C1_amended_sender_selection (unspent : List Utxo) (amt : ℚ) :
    (∀ pre tx post, unspent = pre ++ tx :: post → goodUtxo amt tx →
      (∀ t ∈ pre, ¬ goodUtxo amt t) →
      find_unspent_taddr unspent amt = some tx.address) ∧
    ((∀ t ∈ unspent, ¬ goodUtxo amt t) →
      find_unspent_taddr unspent amt = none ∧
      ∀ r msg opid polls tOut oRes amounts,
        format_amounts r amt msg = some amounts →
        ∃ tr, send_msg none r amt msg unspent opid polls tOut oRes = some tr ∧
          tr.fromAddress = "None" ∧ tr.amounts = amounts) := by
  constructor
  · rintro pre tx post rfl hgood hpre
    exact find_unspent_taddr_first amt pre tx post hgood hpre
  · intro h
    have hnone := find_unspent_taddr_none unspent amt h
    refine ⟨hnone, fun r msg opid polls tOut oRes amounts hfmt => ?_⟩
    cases polls with
    | nil =>
      exact ⟨⟨"None", amounts, .outOfPolls⟩,
        by simp [send_msg, hnone, hfmt, pyStrOfOpt], rfl, rfl⟩
    | cons p rest =>
      exact ⟨⟨"None", amounts, sendPoll opid p.status rest tOut oRes 0 0⟩,
        by simp [send_msg, hnone, hfmt, pyStrOfOpt], rfl, rfl⟩

/-- Counterexample to C1 as stated: with an empty unspent listing and no
sender, `send_msg` does not fail — it submits the send with
`fromaddress = "None"` and runs the polling protocol to completion. -/
theorem C1_counterexample :
    send_msg none "zaddr" 1 "hi" [] "op-1" [⟨"success", ""⟩] (fun _ => false) "" =
      some ⟨"None", [⟨"zaddr", 1, some "6869"⟩], .loopExit "success" 0⟩ ∧
    (send_msg none "zaddr" 1 "hi" [] "op-1" [⟨"success", ""⟩]
      (fun _ => false) "").isSome = true := by
  constructor <;> decide

/-- Witness for C1 (amended): the spec's own scenario — outputs
[0.0001 not spendable, 0.001 spendable, 0.1 spendable], request 0.0005 —
selects the 0.001 output's address; and with no qualifying output the
workflow proceeds with `"None"`. -/
theorem C1_witness :
    find_unspent_taddr
      [⟨"a1", 1/10000, false⟩, ⟨"a2", 1/1000, true⟩, ⟨"a3", 1/10, true⟩]
      (5/10000) = some "a2" ∧
    find_unspent_taddr [] (5/10000) = none ∧
    ∃ tr, send_msg none "zaddr" (5/10000) "hi" [] "op-1" [⟨"executing", ""⟩]
        (fun _ => false) "" = some tr ∧
      tr.fromAddress = "None" ∧ tr.amounts = [⟨"zaddr", 5/10000, some "6869"⟩] := by
  have h2 := (C1_amended_sender_selection [] (5/10000)).2 (by simp)
  refine ⟨?_, h2.1, h2.2 "zaddr" "hi" "op-1" [⟨"executing", ""⟩]
    (fun _ => false) "" [⟨"zaddr", 5/10000, some "6869"⟩] rfl⟩
  exact (C1_amended_sender_selection _ (5/10000)).1
    [⟨"a1", 1/10000, false⟩] ⟨"a2", 1/1000, true⟩ [⟨"a3", 1/10, true⟩] rfl
    ⟨rfl, by norm_num⟩
    (by
      intro t ht
      simp only [List.mem_singleton] at ht
      subst ht
      rintro ⟨hsp, _⟩
      simp at hsp)

/-! ### Claim C2: failed status raises -/

theorem sendPoll_executing_failed (opid oRes : String) (tOut : Nat → Bool)
    (pf : PollResp) (hpf : pf.status = "failed") (rest : List PollResp) :
    ∀ execs : List PollResp, (∀ p ∈ execs, p.status = "executing") →
    ∀ iter sleeps : Nat,
      sendPoll opid "executing" (execs ++ pf :: rest) tOut oRes iter sleeps =
        .raisedFailed opid pf.error (sleeps + execs.length) := by
  obtain ⟨pst, perr⟩ := pf
  have hpf' : pst = "failed" := hpf
  subst hpf'
  intro execs
  induction execs with
  | nil =>
    intro _ iter sleeps
    rfl
  | cons p ps ih =>
    intro hexecs iter sleeps
    obtain ⟨qst, qerr⟩ := p
    have hq : qst = "executing" := hexecs ⟨qst, qerr⟩ (List.mem_cons_self _ _)
    subst hq
    have ih' := ih (fun q hq => hexecs q (List.mem_cons_of_mem _ hq))
    have step : sendPoll opid "executing"
        ((⟨"executing", qerr⟩ : PollResp) :: (ps ++ ⟨"failed", perr⟩ :: rest))
          tOut oRes iter sleeps =
        sendPoll opid "executing" (ps ++ ⟨"failed", perr⟩ :: rest)
          tOut oRes (iter + 1) (sleeps + 1) := rfl
    rw [List.cons_append, step, ih' (iter + 1) (sleeps + 1)]
    congr 1
    simp only [List.length_cons]
    omega

/-- Claim C2 (amended): a `'failed'` status returned by a poll inside
the polling loop — that is, after the status check directly following
submission reported `'executing'` — makes `send_msg` raise
`Exception(response_array[0]['error'])`. But when the very first status
poll after submission returns `'failed'`, the `while status ==
'executing'` loop is never entered and `send_msg` returns without
raising (see the counterexample), so a failed status does not always
raise. -/
theorem C2_amended_failed_raises (sender : Option String) (r : String)
    (amt : ℚ) (msg : String) (unspent : List Utxo) (opid : String)
    (amounts : List AmountEntry) (hfmt : format_amounts r amt msg = some amounts)
    (p0 : PollResp) (h0 : p0.status = "executing")
    (execs : List PollResp) (hexecs : ∀ p ∈ execs, p.status = "executing")
    (pf : PollResp) (hpf : pf.status = "failed") (rest : List PollResp)
    (tOut : Nat → Bool) (oRes : String) :
    ∃ tr, send_msg sender r amt msg unspent opid (p0 :: (execs ++ pf :: rest))
        tOut oRes = some tr ∧
      tr.outcome = .raisedFailed opid pf.error execs.length := by
  simp only [send_msg, hfmt]
  rw [h0, sendPoll_executing_failed opid oRes tOut pf hpf rest execs hexecs 0 0]
  exact ⟨_, rfl, by simp⟩

/-- Counterexample to C2 as stated: when the very first poll after
submission reports `'failed'`, `send_msg` completes without raising —
the outcome is a silent loop exit carrying the `'failed'` status, not a
raised error. -/
theorem C2_counterexample :
    send_msg (some "from") "zaddr" 1 "hi" [] "op-1" [⟨"failed", "boom"⟩]
        (fun _ => false) "" =
      some ⟨"from", [⟨"zaddr", 1, some "6869"⟩], .loopExit "failed" 0⟩ ∧
    SendOutcome.loopExit "failed" 0 ≠ .raisedFailed "op-1" "boom" 0 := by
  constructor <;> decide

/-- Witness for C2 (amended): polls [executing, executing, failed]
raise the attached error after one sleep. -/
theorem C2_witness :
    ∃ tr, send_msg (some "from") "zaddr" 1 "hi" [] "op-1"
        [⟨"executing", ""⟩, ⟨"executing", ""⟩, ⟨"failed", "boom"⟩]
        (fun _ => false) "" = some tr ∧
      tr.outcome = .raisedFailed "op-1" "boom" 1 :=
  C2_amended_failed_raises (some "from") "zaddr" 1 "hi" [] "op-1"
    [⟨"zaddr", 1, some "6869"⟩] (by decide)
    ⟨"executing", ""⟩ rfl [⟨"executing", ""⟩] (by decide)
    ⟨"failed", "boom"⟩ rfl [] (fun _ => false) ""

/-! ### Claim C9: success after polls [executing, executing, success] -/

/-- Claim C9 (amended): if submission returns an operation id and the
successive status polls return `'executing'`, `'executing'`,
`'success'` in that order, `send_msg` reports success with that
operation id after exactly **one** 1-second sleep — not two. The first
`'executing'` is the pre-loop status check (zmsg.py line 97-98), the
second is polled inside the loop and triggers the single sleep, and the
`'success'` poll ends the loop without sleeping. -/
theorem C9_amended_success_one_sleep (sdr : String) (hsdr : sdr ≠ "")
    (r : String) (amt : ℚ) (msg : String) (unspent : List Utxo)
    (opid : String) (amounts : List AmountEntry)
    (hfmt : format_amounts r amt msg = some amounts)
    (e1 e2 p3 : PollResp) (h1 : e1.status = "executing")
    (h2 : e2.status = "executing") (h3 : p3.status = "success")
    (tOut : Nat → Bool) (oRes : String) :
    send_msg (some sdr) r amt msg unspent opid [e1, e2, p3] tOut oRes =
      some ⟨sdr, amounts, .sentSuccess opid 1⟩ := by
  obtain ⟨s1, x1⟩ := e1
  have h1' : s1 = "executing" := h1
  subst h1'
  obtain ⟨s2, x2⟩ := e2
  have h2' : s2 = "executing" := h2
  subst h2'
  obtain ⟨s3, x3⟩ := p3
  have h3' : s3 = "success" := h3
  subst h3'
  have hcond : ¬(some sdr = some "" ∨ (some sdr : Option String) = none) := by
    simp [hsdr]
  simp only [send_msg, hfmt, if_neg hcond]
  rfl

/-- Counterexample to C9 as stated: the poll sequence
[executing, executing, success] yields success with **one** sleep, and
that outcome differs from the claimed two-sleep outcome. -/
theorem C9_counterexample :
    send_msg (some "taddr") "zaddr" 1 "hi" [] "opid-1"
        [⟨"executing", ""⟩, ⟨"executing", ""⟩, ⟨"success", ""⟩]
        (fun _ => false) "" =
      some ⟨"taddr", [⟨"zaddr", 1, some "6869"⟩], .sentSuccess "opid-1" 1⟩ ∧
    SendOutcome.sentSuccess "opid-1" 1 ≠ .sentSuccess "opid-1" 2 := by
  constructor <;> decide

/-- Witness for C9 (amended) at opid `"opid-1"`. -/
theorem C9_witness :
    send_msg (some "taddr") "zaddr" 1 "hi" [] "opid-1"
        [⟨"executing", ""⟩, ⟨"executing", ""⟩, ⟨"success", ""⟩]
        (fun _ => false) "" =
      some ⟨"taddr", [⟨"zaddr", 1, some "6869"⟩], .sentSuccess "opid-1" 1⟩ :=
  C9_amended_success_one_sleep "taddr" (by decide) "zaddr" 1 "hi" [] "opid-1"
    [⟨"zaddr", 1, some "6869"⟩] (by decide)
    ⟨"executing", ""⟩ ⟨"executing", ""⟩ ⟨"success", ""⟩ rfl rfl rfl
    (fun _ => false) ""
